import Mathlib

/-!
Verification development for the CPUGPU LCDSmartie plugin (src/CPUGPU.cpp).

The plugin exposes a string-based query interface over two backends:
a LibreHardwareMonitor hardware tree (CPU metrics, `function1`) and the
NVIDIA Management Library (GPU metrics, `function2`), plus process-wide
init/shutdown state (`SmartieInit` / `SmartieFini`).

Modelling conventions:
* C `float` / `double` sensor values are modelled as exact rationals `ℚ`;
  `static_cast<int>` of a floating value is modelled as truncation toward
  zero (`ratTrunc`), and `snprintf` `%.2f` / `%.1f` fixed-point formatting
  as decimal rounding to the nearest (half-up) on the exact rational
  (`format2` / `format1`).  None of the verified claims depends on
  floating-point rounding at a tie boundary.
* Machine integers are `Nat` with explicit `% 2^w` at the points where the
  C code can overflow (the 64-bit product in `Mem_Usage`, the
  `unsigned int` cast of the converted power value).
* The vendor backends are snapshots: the hardware tree is a pure value
  (`Computer`), the NVML calls are fields of an environment record
  (`NvmlEnv`) giving each query's status code and out-parameter;
  `nvmlErrorString` is an environment-supplied map from status codes to
  strings.  `Update()` refreshes sensor values in place, so a model tree
  holds the post-update values.
-/

/-- Sensor type tags of the LibreHardwareMonitor framework used by the
plugin (`SensorType::Load`, `Power`, `Temperature`, `Fan`, `Clock`). -/
inductive SensorType where
  | Load
  | Power
  | Temperature
  | Fan
  | Clock
deriving DecidableEq

/-- Hardware node type tags used by the plugin (`HardwareType::Cpu`; other
nodes such as the motherboard carry the fan sensors). -/
inductive HardwareType where
  | Cpu
  | Motherboard
  | Gpu
deriving DecidableEq

/-- One `ISensor`: a type tag, a display name and an optional current
value (`sensor->Value` is a nullable float, read through
`GetValueOrDefault(0.0f)`). -/
structure Sensor where
  stype : SensorType
  name : String
  value : Option ℚ
deriving DecidableEq

/-- One `SubHardware` node; the plugin only reads its sensor list. -/
structure SubHardware where
  sensors : List Sensor
deriving DecidableEq

/-- One top-level `IHardware` node: a type, its sensors and its
sub-hardware nodes. -/
structure Hardware where
  htype : HardwareType
  sensors : List Sensor
  subHardware : List SubHardware
deriving DecidableEq

/-- The opened hardware tree (`HardwareMonitor::computer->Hardware`). -/
abbrev Computer := List Hardware

/-- Configured fan index on the motherboard sensor bus (`CPU_FAN = 2`). -/
def CPU_FAN : Nat := 2

/-- Configured maximum CPU fan speed in RPM (`CPU_SPEED = 1800`). -/
def CPU_SPEED : Nat := 1800

/-- Minimum refresh interval in milliseconds (`MIN_INTERVAL = 300`). -/
def MIN_INTERVAL : Nat := 300

/-- Truncation toward zero of a rational, the model of C's
`static_cast<int>`/`(unsigned int)` conversion from a floating value. -/
def ratTrunc (x : ℚ) : Int :=
  if 0 ≤ x then ⌊x⌋ else -⌊-x⌋

/-- Fuel-driven decimal digit list of a natural number (most significant
digit first); `fuel = n + 1` always suffices.  Structural recursion on the
fuel keeps the definition kernel-computable. -/
def natDigitsAux (fuel : Nat) (n : Nat) : List Char :=
  match fuel with
  | 0 => []
  | f + 1 =>
    if n < 10 then [Nat.digitChar n]
    else natDigitsAux f (n / 10) ++ [Nat.digitChar (n % 10)]

/-- Decimal string of a natural number, the model of `snprintf`'s `%u`
for an in-range nonnegative value. -/
def natStr (n : Nat) : String :=
  String.mk (natDigitsAux (n + 1) n)

/-- Fixed-point formatting with two decimals, the model of `%.2f` for a
nonnegative value (decimal rounding half-up on the exact rational). -/
def format2 (x : ℚ) : String :=
  natStr ((ratTrunc (x * 100 + 1/2)).toNat / 100) ++ "." ++
    (if (ratTrunc (x * 100 + 1/2)).toNat % 100 < 10
     then "0" ++ natStr ((ratTrunc (x * 100 + 1/2)).toNat % 100)
     else natStr ((ratTrunc (x * 100 + 1/2)).toNat % 100))

/-- Fixed-point formatting with one decimal, the model of `%.1f` for a
nonnegative value (decimal rounding half-up on the exact rational). -/
def format1 (x : ℚ) : String :=
  natStr ((ratTrunc (x * 10 + 1/2)).toNat / 10) ++ "." ++
    natStr ((ratTrunc (x * 10 + 1/2)).toNat % 10)

/-- Boolean prefix test on character lists. -/
def listPrefix : List Char → List Char → Bool
  | [], _ => true
  | _ :: _, [] => false
  | a :: as, b :: bs => a == b && listPrefix as bs

/-- Boolean contiguous-substring test on character lists. -/
def listInfix : List Char → List Char → Bool
  | pat, [] => listPrefix pat []
  | pat, c :: t => listPrefix pat (c :: t) || listInfix pat t

/-- Substring test, the model of `System::String::Contains`. -/
def containsStr (s pat : String) : Bool :=
  listInfix pat.data s.data

/-- Linear scan of a sensor list for the first sensor matching a type tag
and a name predicate (the inner `for each (ISensor ...)` loops). -/
def findSensor (st : SensorType) (p : String → Bool) : List Sensor → Option Sensor
  | [] => none
  | s :: rest =>
    if s.stype = st ∧ p s.name then some s else findSensor st p rest

/-- Scan of the hardware tree restricted to CPU-typed nodes for the first
sensor matching a type tag and a name predicate (the outer
`for each (IHardware ...)` loops of the CPU metric getters). -/
def findCpuSensor (st : SensorType) (p : String → Bool) : Computer → Option Sensor
  | [] => none
  | h :: rest =>
    if h.htype = HardwareType.Cpu then
      match findSensor st p h.sensors with
      | some s => some s
      | none => findCpuSensor st p rest
    else findCpuSensor st p rest

/-- Fan-type sensors of all sub-hardware nodes of all top-level nodes, in
encounter order (the nested loops of `GetCpuFanSpeed` /
`GetCpuFanSpeedRPM` count exactly these). -/
def fanSensors (comp : Computer) : List Sensor :=
  (comp.flatMap (fun h => h.subHardware)).flatMap
    (fun sh => sh.sensors.filter (fun s => s.stype = SensorType.Fan))

/-- Model of `GetCpuLoad`: first `Load` sensor named "CPU Total" on a
CPU-typed node; `-1` when absent. -/
def GetCpuLoad (comp : Computer) : Int :=
  match findCpuSensor SensorType.Load (fun n => n = "CPU Total") comp with
  | some s => ratTrunc (s.value.getD 0)
  | none => -1

/-- Model of `GetCpuPower`: first `Power` sensor whose name contains
"Package" on a CPU-typed node; `-1` when absent. -/
def GetCpuPower (comp : Computer) : Int :=
  match findCpuSensor SensorType.Power (fun n => containsStr n "Package") comp with
  | some s => ratTrunc (s.value.getD 0)
  | none => -1

/-- Model of `GetCpuTemperature`: first `Temperature` sensor named
"CPU Package" on a CPU-typed node; `-1` when absent. -/
def GetCpuTemperature (comp : Computer) : Int :=
  match findCpuSensor SensorType.Temperature (fun n => n = "CPU Package") comp with
  | some s => ratTrunc (s.value.getD 0)
  | none => -1

/-- Model of `GetCpuFanSpeed`: the fan sensor at position `fanIndex`
among all fan-type sub-hardware sensors; `0` when it reads exactly zero,
otherwise `(reading / maxFanSpeed) * 100` truncated; `-1` when there is
no such sensor. -/
def GetCpuFanSpeed (fanIndex maxFanSpeed : Nat) (comp : Computer) : Int :=
  match (fanSensors comp)[fanIndex]? with
  | some s =>
    if s.value.getD 0 = 0 then 0
    else ratTrunc (s.value.getD 0 / (maxFanSpeed : ℚ) * 100)
  | none => -1

/-- Model of `GetCpuFanSpeedRPM`: the raw reading of the fan sensor at
position `fanIndex`, truncated to an integer; `-1` when absent.  The
`maxFanSpeed` parameter is unused, as in the source. -/
def GetCpuFanSpeedRPM (fanIndex maxFanSpeed : Nat) (comp : Computer) : Int :=
  match (fanSensors comp)[fanIndex]? with
  | some s => ratTrunc (s.value.getD 0)
  | none => -1

/-- Model of `GetCpuFrequency`: first `Clock` sensor named "CPU Core #1"
on a CPU-typed node, as a rational MHz value; `-1` when absent. -/
def GetCpuFrequency (comp : Computer) : ℚ :=
  match findCpuSensor SensorType.Clock (fun n => n = "CPU Core #1") comp with
  | some s => s.value.getD 0
  | none => -1

/-- Model of `function1`, the CPU query router: exact match of `param1`
against the six supported names, backend lookup, error check against the
negative sentinel, and formatting with an optional unit suffix when
`param2` is "1". -/
def function1 (param1 param2 : String) (comp : Computer) : String :=
  if param1 = "Load" then
    if GetCpuLoad comp < 0 then "Error reading CPU Load"
    else natStr (GetCpuLoad comp).toNat ++ (if param2 = "1" then "%" else "")
  else if param1 = "Power" then
    if GetCpuPower comp < 0 then "Error reading CPU Power"
    else natStr (GetCpuPower comp).toNat ++ (if param2 = "1" then "W" else "")
  else if param1 = "Temp" then
    if GetCpuTemperature comp < 0 then "Error reading CPU Temp"
    else natStr (GetCpuTemperature comp).toNat ++ (if param2 = "1" then "°C" else "")
  else if param1 = "Fan_RPM" then
    if GetCpuFanSpeedRPM CPU_FAN CPU_SPEED comp < 0 then "Error reading Fan Speed"
    else natStr (GetCpuFanSpeedRPM CPU_FAN CPU_SPEED comp).toNat ++
      (if param2 = "1" then "RPM" else "")
  else if param1 = "Fan" then
    if GetCpuFanSpeed CPU_FAN CPU_SPEED comp < 0 then "Error reading Fan Speed"
    else natStr (GetCpuFanSpeed CPU_FAN CPU_SPEED comp).toNat ++
      (if param2 = "1" then "%" else "")
  else if param1 = "Clock" then
    if GetCpuFrequency comp < 0 then "Error reading CPU clock"
    else format2 (GetCpuFrequency comp / 1000) ++ (if param2 = "1" then "GHz" else "")
  else "Invalid parameter"

/-- NVML clock throttle reason bit `NVML_CLK_THROTTLE_REASON_RELIABILITY`. -/
def NVML_CLK_THROTTLE_REASON_RELIABILITY : Nat := 4

/-- Snapshot of the NVML backend for one query: the status code returned
by each vendor call (`0` is `NVML_SUCCESS`), each call's out-parameter,
and the `nvmlErrorString` map. -/
structure NvmlEnv where
  handleResult : Nat
  tempResult : Nat
  temp : Nat
  throttleResult : Nat
  throttleReasons : Nat
  fanResult : Nat
  fanSpeed : Nat
  powerResult : Nat
  power : Nat
  clockResult : Nat
  clock : Nat
  memClockResult : Nat
  memClock : Nat
  memResult : Nat
  memUsed : Nat
  memTotal : Nat
  utilResult : Nat
  utilGpu : Nat
  errString : Nat → String

/-- Model of `checkNvmlInitialized`: the fixed error message when the
NVML initialization flag is unset, `none` otherwise. -/
def checkNvmlInitialized (nvmlInitialized : Bool) : Option String :=
  if nvmlInitialized = false then some "NVML not initialized" else none

/-- Model of `function2`, the GPU query router: the NVML-initialized
gate, the device-handle lookup, then exact match of `param1` against the
nine supported names with per-metric conversion and unit suffixing. -/
def function2 (param1 param2 : String) (nvmlInitialized : Bool) (env : NvmlEnv) : String :=
  match checkNvmlInitialized nvmlInitialized with
  | some msg => msg
  | none =>
    if env.handleResult ≠ 0 then "GPU handle error: " ++ env.errString env.handleResult
    else if param1 = "Temp" then
      if env.tempResult ≠ 0 then "Error getting temp: " ++ env.errString env.tempResult
      else natStr env.temp ++ (if param2 = "1" then "°C" else "")
    else if param1 = "Limit" then
      if env.throttleResult ≠ 0 then
        "Error getting throttle reasons: " ++ env.errString env.throttleResult
      else if (env.throttleReasons &&& NVML_CLK_THROTTLE_REASON_RELIABILITY) ≠ 0
      then "!" else " "
    else if param1 = "Fan" then
      if env.fanResult ≠ 0 then "Error getting fan speed: " ++ env.errString env.fanResult
      else natStr env.fanSpeed ++ (if param2 = "1" then "%" else "")
    else if param1 = "Power" then
      if env.powerResult ≠ 0 then "Error getting power usage: " ++ env.errString env.powerResult
      else natStr ((ratTrunc ((env.power : ℚ) / 1000 + 1/2)).toNat % 2^32) ++
        (if param2 = "1" then "W" else "")
    else if param1 = "Clock" then
      if env.clockResult ≠ 0 then "Error getting GPU clock: " ++ env.errString env.clockResult
      else format2 ((env.clock : ℚ) / 1000) ++ (if param2 = "1" then "GHz" else "")
    else if param1 = "Mem_Clock" then
      if env.memClockResult ≠ 0 then
        "Error getting Memory clock: " ++ env.errString env.memClockResult
      else format2 ((env.memClock : ℚ) / 1000) ++ (if param2 = "1" then "GHz" else "")
    else if param1 = "Mem_Alloc" then
      if env.memResult ≠ 0 then
        "Error getting memory usage: " ++ env.errString env.memResult
      else format1 ((env.memUsed : ℚ) / (1024 * 1024 * 1024)) ++
        (if param2 = "1" then "Gb" else "")
    else if param1 = "Mem_Usage" then
      if env.memResult ≠ 0 then
        "Error getting memory usage: " ++ env.errString env.memResult
      else natStr ((env.memUsed * 100) % 2^64 / env.memTotal % 2^32) ++
        (if param2 = "1" then "%" else "")
    else if param1 = "Load" then
      if env.utilResult ≠ 0 then "Error getting GPU load: " ++ env.errString env.utilResult
      else natStr env.utilGpu ++ (if param2 = "1" then "%" else "")
    else "Invalid parameter"

/-- Process-wide plugin state: the NVML initialization flag and the
hardware tree handle (`HardwareMonitor::computer`, `nullptr` = `none`). -/
structure PluginState where
  nvmlInitialized : Bool
  computer : Option Computer
deriving DecidableEq

/-- Model of `HardwareMonitor::Initialize` (the name is flattened):
opens a fresh tree only when the handle is null. -/
def HardwareMonitorInit (newTree : Computer) (c : Option Computer) : Option Computer :=
  match c with
  | none => some newTree
  | some t => some t

/-- Model of `HardwareMonitor::Close` (the name is flattened): the handle
is null afterwards; a null handle is left untouched. -/
def HardwareMonitorClose (c : Option Computer) : Option Computer :=
  match c with
  | none => none
  | some _ => none

/-- Model of `SmartieInit`: attempt NVML initialization when the flag is
unset (`nvmlInitResult` is the status `nvmlInit()` would return), then
open the hardware tree when the handle is null.  The privilege check and
the message boxes have no effect on the modelled state. -/
def SmartieInit (nvmlInitResult : Nat) (newTree : Computer) (s : PluginState) : PluginState :=
  let s1 : PluginState :=
    if s.nvmlInitialized then s
    else if nvmlInitResult = 0 then { s with nvmlInitialized := true } else s
  { s1 with computer := HardwareMonitorInit newTree s1.computer }

/-- Model of `SmartieFini`: only when the NVML flag is set, shut NVML
down, clear the flag and close the hardware tree handle. -/
def SmartieFini (s : PluginState) : PluginState :=
  if s.nvmlInitialized then
    { nvmlInitialized := false, computer := HardwareMonitorClose s.computer }
  else s

/-- Unit suffixes the router can append, as character lists:
`%`, `W`, `°C`, `RPM`, `GHz`, `Gb`. -/
def unitSuffixes : List (List Char) :=
  [['%'], ['W'], ['°', 'C'], ['R', 'P', 'M'], ['G', 'H', 'z'], ['G', 'b']]

/-- Boolean suffix test on character lists. -/
def isSuffix (u s : List Char) : Bool :=
  listPrefix u.reverse s.reverse

/-- Predicate: the string ends with one of the six unit suffixes. -/
def hasUnitSuffix (s : String) : Bool :=
  unitSuffixes.any (fun u => isSuffix u s.data)

/-- Final characters of the six unit suffixes. -/
def unitLastChars : List Char := ['%', 'W', 'C', 'M', 'z', 'b']

/-- Predicate: the string is empty or its last character is not the last
character of any unit suffix (hence no unit suffix can end it). -/
def lastCharUnitFree (s : String) : Bool :=
  s.data.reverse.head?.all (fun c => !(unitLastChars.contains c))

theorem data_append (a b : String) : (a ++ b).data = a.data ++ b.data := by
  cases a; cases b; rfl

theorem hasUnitSuffix_false_of_unitFree (s : String)
    (h : lastCharUnitFree s = true) : hasUnitSuffix s = false := by
  unfold lastCharUnitFree at h
  cases hrev : s.data.reverse with
  | nil =>
    simp [hasUnitSuffix, unitSuffixes, isSuffix, hrev, listPrefix]
  | cons c t =>
    rw [hrev] at h
    simp [unitLastChars] at h
    obtain ⟨h1, h2, h3, h4, h5, h6⟩ := h
    simp [hasUnitSuffix, unitSuffixes, isSuffix, hrev, listPrefix]
    exact ⟨fun hh => h1 hh.symm, fun hh => h2 hh.symm, fun hh => absurd hh.symm h3,
      fun hh => absurd hh.symm h4, fun hh => absurd hh.symm h5, fun hh => absurd hh.symm h6⟩

theorem lastCharUnitFree_append (a b : String) (hb : b.data ≠ [])
    (h : lastCharUnitFree b = true) : lastCharUnitFree (a ++ b) = true := by
  unfold lastCharUnitFree at *
  rw [data_append, List.reverse_append]
  cases hrev : b.data.reverse with
  | nil => exact absurd (List.reverse_eq_nil_iff.mp hrev) hb
  | cons c t => rw [hrev] at h; simpa using h

theorem natDigitsAux_rev_head (n : Nat) :
    (natDigitsAux (n + 1) n).reverse.head? = some (Nat.digitChar (n % 10)) := by
  have hu : natDigitsAux (n + 1) n =
      if n < 10 then [Nat.digitChar n]
      else natDigitsAux n (n / 10) ++ [Nat.digitChar (n % 10)] := rfl
  rw [hu]
  split
  · simp [Nat.mod_eq_of_lt (by assumption)]
  · simp

theorem natStr_unitFree (n : Nat) : lastCharUnitFree (natStr n) = true := by
  unfold lastCharUnitFree natStr
  rw [show (String.mk (natDigitsAux (n + 1) n)).data = natDigitsAux (n + 1) n from rfl]
  rw [natDigitsAux_rev_head]
  have h : n % 10 < 10 := Nat.mod_lt _ (by norm_num)
  interval_cases h2 : n % 10 <;> decide

theorem natStr_data_ne_nil (n : Nat) : (natStr n).data ≠ [] := by
  unfold natStr
  rw [show (String.mk (natDigitsAux (n + 1) n)).data = natDigitsAux (n + 1) n from rfl]
  have hu : natDigitsAux (n + 1) n =
      if n < 10 then [Nat.digitChar n]
      else natDigitsAux n (n / 10) ++ [Nat.digitChar (n % 10)] := rfl
  rw [hu]
  split <;> simp

theorem natStr_unitSuffix (n : Nat) : hasUnitSuffix (natStr n) = false :=
  hasUnitSuffix_false_of_unitFree _ (natStr_unitFree n)

theorem format2_unitFree (x : ℚ) : lastCharUnitFree (format2 x) = true := by
  unfold format2
  split
  · apply lastCharUnitFree_append
    · rw [data_append]
      simp [natStr_data_ne_nil]
    · apply lastCharUnitFree_append _ _ (natStr_data_ne_nil _) (natStr_unitFree _)
  · exact lastCharUnitFree_append _ _ (natStr_data_ne_nil _) (natStr_unitFree _)

theorem format1_unitFree (x : ℚ) : lastCharUnitFree (format1 x) = true := by
  unfold format1
  exact lastCharUnitFree_append _ _ (natStr_data_ne_nil _) (natStr_unitFree _)

theorem strAppendEmpty (s : String) : s ++ "" = s := by
  cases s; simp [String.append]

theorem ratTrunc_of_nonneg (x : ℚ) (h : 0 ≤ x) : ratTrunc x = ⌊x⌋ := by
  rw [ratTrunc, if_pos h]

theorem ratTrunc_power (p : Nat) :
    (ratTrunc ((p : ℚ) / 1000 + 1 / 2)).toNat = (p + 500) / 1000 := by
  have hx : (0 : ℚ) ≤ (p : ℚ) / 1000 + 1 / 2 := by positivity
  rw [ratTrunc_of_nonneg _ hx]
  have he : (p : ℚ) / 1000 + 1 / 2 = ((p + 500 : ℕ) : ℚ) / ((1000 : ℕ) : ℚ) := by
    push_cast; ring
  rw [he, Rat.floor_natCast_div_natCast]
  omega

/-- Default concrete NVML environment for witnesses: every call succeeds
with reading 0, and the vendor error text is a fixed placeholder. -/
def env0 : NvmlEnv :=
  { handleResult := 0, tempResult := 0, temp := 0, throttleResult := 0,
    throttleReasons := 0, fanResult := 0, fanSpeed := 0, powerResult := 0,
    power := 0, clockResult := 0, clock := 0, memClockResult := 0,
    memClock := 0, memResult := 0, memUsed := 0, memTotal := 0,
    utilResult := 0, utilGpu := 0, errString := fun _ => "Unknown Error" }

/-- C4: calling the GPU query function2 with any metric name and any
show-units flag while the NVML initialization flag is unset returns
exactly the literal string "NVML not initialized". -/
theorem spec_C4_nvml_gate (param1 param2 : String) (env : NvmlEnv) :
    function2 param1 param2 false env = "NVML not initialized" := rfl

/-- C1: a metric name that is not one of the supported names of its
domain makes that domain's query function return exactly
"Invalid parameter", for every show-units parameter: function1 for any
name outside the six CPU names, and function2 (once past the NVML gate
and the device-handle lookup) for any name outside the nine GPU names —
each domain judged on its own list. -/
theorem spec_C1_invalid_parameter (param1 param2 : String) (comp : Computer) (env : NvmlEnv)
    (hh : env.handleResult = 0) :
    (param1 ∉ ["Load", "Power", "Temp", "Fan_RPM", "Fan", "Clock"] →
        function1 param1 param2 comp = "Invalid parameter")
      ∧ (param1 ∉
          ["Load", "Power", "Limit", "Temp", "Fan", "Clock", "Mem_Clock", "Mem_Alloc", "Mem_Usage"] →
        function2 param1 param2 true env = "Invalid parameter") := by
  constructor
  · intro hcpu
    simp at hcpu
    obtain ⟨c1, c2, c3, c4, c5, c6⟩ := hcpu
    simp [function1, c1, c2, c3, c4, c5, c6]
  · intro hgpu
    simp at hgpu
    obtain ⟨g1, g2, g3, g4, g5, g6, g7, g8, g9⟩ := hgpu
    simp [function2, checkNvmlInitialized, hh, g1, g2, g3, g4, g5, g6, g7, g8, g9]

/-- Witness for C1 at a GPU-only name in the CPU domain ("Limit"), a
CPU-only name in the GPU domain ("Fan_RPM"), and a name supported in
neither ("Bogus"). -/
theorem spec_C1_witness :
    function1 "Limit" "0" [] = "Invalid parameter"
      ∧ function2 "Fan_RPM" "0" true env0 = "Invalid parameter"
      ∧ function1 "Bogus" "1" [] = "Invalid parameter"
      ∧ function2 "Bogus" "1" true env0 = "Invalid parameter" :=
  ⟨(spec_C1_invalid_parameter "Limit" "0" [] env0 rfl).1 (by decide),
    (spec_C1_invalid_parameter "Fan_RPM" "0" [] env0 rfl).2 (by decide),
    (spec_C1_invalid_parameter "Bogus" "1" [] env0 rfl).1 (by decide),
    (spec_C1_invalid_parameter "Bogus" "1" [] env0 rfl).2 (by decide)⟩

/-- C8: while the hardware tree handle is already open, a further
SmartieInit (and the underlying HardwareMonitor Initialize step) leaves
the handle exactly as it was. -/
theorem spec_C8_idempotent (r : Nat) (t : Computer) (s : PluginState) (c : Computer)
    (h : s.computer = some c) :
    (SmartieInit r t s).computer = s.computer
      ∧ HardwareMonitorInit t s.computer = s.computer := by
  have h2 : HardwareMonitorInit t s.computer = s.computer := by
    rw [h]; rfl
  refine ⟨?_, h2⟩
  unfold SmartieInit
  dsimp only
  split
  · exact h2
  · split
    · exact h2
    · exact h2

/-- Witness for C8: a second initialize on an open handle is a no-op. -/
theorem spec_C8_witness :
    (SmartieInit 0 [] { nvmlInitialized := false, computer := some [] }).computer = some [] := by
  have h := spec_C8_idempotent 0 [] { nvmlInitialized := false, computer := some [] } [] rfl
  rw [h.1]

/-- C3 (amended): SmartieFini releases the GPU backend and closes the
Hardware Tree handle only when the NVML flag is set; when it is set both
are released in the same step, and when it is unset SmartieFini changes
nothing (in particular the handle stays open). -/
theorem spec_C3_shutdown (s : PluginState) :
    (s.nvmlInitialized = true →
        SmartieFini s = { nvmlInitialized := false, computer := none })
      ∧ (s.nvmlInitialized = false → SmartieFini s = s) := by
  constructor
  · intro h
    cases hc : s.computer <;> simp [SmartieFini, h, HardwareMonitorClose, hc]
  · intro h
    simp [SmartieFini, h]

/-- Counterexample for C3 as stated: with the NVML flag unset and the
hardware tree open, a SmartieFini call leaves the handle open, so the
handle is not closed "regardless of the prior initialization state". -/
theorem spec_C3_counterexample :
    (SmartieFini { nvmlInitialized := false, computer := some [] }).computer = some []
      ∧ (some ([] : Computer) ≠ none) := by
  exact ⟨rfl, by simp⟩

/-- Witness for C3 (amended) at a concrete initialized state. -/
theorem spec_C3_witness :
    SmartieFini { nvmlInitialized := true, computer := some [] }
      = { nvmlInitialized := false, computer := none } :=
  (spec_C3_shutdown _).1 rfl

/-- C5: a successful GPU power reading p (milliwatts, a 32-bit value) is
reported as round-half-up of p/1000 — i.e. (p + 500) / 1000 — with the
"W" suffix exactly when units are requested. -/
theorem spec_C5_power (env : NvmlEnv) (hh : env.handleResult = 0)
    (hr : env.powerResult = 0) (hp : env.power < 2 ^ 32) :
    function2 "Power" "1" true env = natStr ((env.power + 500) / 1000) ++ "W"
      ∧ function2 "Power" "0" true env = natStr ((env.power + 500) / 1000) := by
  have hp' : env.power < 4294967296 := by
    calc env.power < 2 ^ 32 := hp
      _ = 4294967296 := by norm_num
  have hkey : (ratTrunc ((env.power : ℚ) / 1000 + 2⁻¹)).toNat % 4294967296
      = (env.power + 500) / 1000 := by
    have h2 : ((2 : ℚ))⁻¹ = 1 / 2 := by norm_num
    rw [h2, ratTrunc_power]
    omega
  constructor <;> simp [function2, checkNvmlInitialized, hh, hr, hkey, strAppendEmpty]

/-- Concrete NVML environment for the C5 witness: raw power 123456 mW. -/
def envC5 : NvmlEnv := { env0 with power := 123456 }

/-- Witness for C5: a raw reading of 123456 with units on yields "123W". -/
theorem spec_C5_witness : function2 "Power" "1" true envC5 = "123W" := by
  have h := (spec_C5_power envC5 rfl rfl (by decide)).1
  rw [h]; decide

/-- C6 (amended): a successful GPU memory-info reading is reported as
((used × 100) mod 2^64) / total, truncating, reduced mod 2^32 by the
unsigned-int cast; when used × 100 < 2^64 and the quotient fits in 32
bits this is exactly floor((used × 100) / total). -/
theorem spec_C6_mem_usage (env : NvmlEnv) (hh : env.handleResult = 0)
    (hr : env.memResult = 0) (ht : 0 < env.memTotal)
    (ho : env.memUsed * 100 < 2 ^ 64)
    (hq : env.memUsed * 100 / env.memTotal < 2 ^ 32) :
    function2 "Mem_Usage" "0" true env = natStr (env.memUsed * 100 / env.memTotal)
      ∧ function2 "Mem_Usage" "1" true env
          = natStr (env.memUsed * 100 / env.memTotal) ++ "%" := by
  have ho' : env.memUsed * 100 < 18446744073709551616 := by
    calc env.memUsed * 100 < 2 ^ 64 := ho
      _ = 18446744073709551616 := by norm_num
  have hq' : env.memUsed * 100 / env.memTotal < 4294967296 := by
    calc env.memUsed * 100 / env.memTotal < 2 ^ 32 := hq
      _ = 4294967296 := by norm_num
  have hkey : env.memUsed * 100 % 18446744073709551616 / env.memTotal % 4294967296
      = env.memUsed * 100 / env.memTotal := by
    rw [Nat.mod_eq_of_lt ho', Nat.mod_eq_of_lt hq']
  constructor <;> simp [function2, checkNvmlInitialized, hh, hr, hkey, strAppendEmpty]

/-- Concrete NVML environment overflowing the 64-bit product:
used = total = 2^60 bytes. -/
def envC6bad : NvmlEnv := { env0 with memUsed := 2 ^ 60, memTotal := 2 ^ 60 }

/-- Counterexample for C6 as stated: at used = total = 2^60 the code
reports "4%" (the 64-bit product wraps), not the claimed
floor((used × 100) / total) = 100. -/
theorem spec_C6_counterexample :
    function2 "Mem_Usage" "1" true envC6bad
        ≠ natStr (envC6bad.memUsed * 100 / envC6bad.memTotal) ++ "%"
      ∧ function2 "Mem_Usage" "1" true envC6bad = "4%" := by
  decide

/-- Concrete NVML environment for the C6 witness:
used = 2147483648, total = 8589934592. -/
def envC6w : NvmlEnv := { env0 with memUsed := 2147483648, memTotal := 8589934592 }

/-- Witness for C6 (amended): used = 2147483648, total = 8589934592
yields "25%". -/
theorem spec_C6_witness : function2 "Mem_Usage" "1" true envC6w = "25%" := by
  have h := (spec_C6_mem_usage envC6w rfl rfl (by decide) (by decide) (by decide)).2
  rw [h]; decide

/-- C9: the GPU "Limit" output is independent of the show-units flag in
every backend state; on a successful throttle-reasons reading it is "!"
when the reliability bit is set and a single space otherwise, and it
never carries a unit suffix. -/
theorem spec_C9_limit (env : NvmlEnv) (b : Bool) :
    function2 "Limit" "0" b env = function2 "Limit" "1" b env
      ∧ (b = true → env.handleResult = 0 → env.throttleResult = 0 →
          function2 "Limit" "1" b env =
              (if (env.throttleReasons &&& NVML_CLK_THROTTLE_REASON_RELIABILITY) ≠ 0
               then "!" else " ")
            ∧ hasUnitSuffix (function2 "Limit" "1" b env) = false) := by
  cases b with
  | false => exact ⟨rfl, by simp⟩
  | true =>
    refine ⟨rfl, fun _ hh ht => ?_⟩
    have he : function2 "Limit" "1" true env =
        (if (env.throttleReasons &&& NVML_CLK_THROTTLE_REASON_RELIABILITY) ≠ 0
         then "!" else " ") := by
      simp [function2, checkNvmlInitialized, hh, ht]
    refine ⟨he, ?_⟩
    rw [he]
    split <;> decide

/-- Concrete NVML environment for the C9 witness: reliability bit set. -/
def envC9 : NvmlEnv := { env0 with throttleReasons := 4 }

/-- Witness for C9 at a state with the reliability throttle bit set. -/
theorem spec_C9_witness :
    function2 "Limit" "0" true envC9 = function2 "Limit" "1" true envC9
      ∧ function2 "Limit" "1" true envC9 = "!" := by
  have h := spec_C9_limit envC9 true
  have h2 := h.2 rfl rfl rfl
  refine ⟨h.1, ?_⟩
  rw [h2.1]; decide

theorem GetCpuFanSpeed_zero (fanIdx M : Nat) (comp : Computer) (s : Sensor)
    (hf : (fanSensors comp)[fanIdx]? = some s) (h : s.value.getD 0 = 0) :
    GetCpuFanSpeed fanIdx M comp = 0 := by
  unfold GetCpuFanSpeed
  rw [hf]
  simp [h]

theorem GetCpuFanSpeed_max (fanIdx M : Nat) (comp : Computer) (s : Sensor)
    (hM : 0 < M) (hf : (fanSensors comp)[fanIdx]? = some s)
    (h : s.value.getD 0 = (M : ℚ)) :
    GetCpuFanSpeed fanIdx M comp = 100 := by
  have hM0 : ((M : ℚ)) ≠ 0 := Nat.cast_ne_zero.mpr hM.ne'
  unfold GetCpuFanSpeed
  rw [hf]
  show (if s.value.getD 0 = 0 then 0
    else ratTrunc (s.value.getD 0 / (M : ℚ) * 100)) = 100
  rw [if_neg (by rw [h]; exact hM0), h, div_self hM0, one_mul,
    ratTrunc_of_nonneg _ (by norm_num)]
  norm_num

theorem format2_zero : format2 0 = "0.00" := by
  have h1 : ratTrunc ((0 : ℚ) * 100 + 1/2) = 0 := by
    rw [ratTrunc_of_nonneg _ (by norm_num)]
    norm_num
  unfold format2
  rw [h1]
  decide

/-- C7: with a fan sensor present at the configured index and maximum
RPM M > 0: a reading of exactly 0 yields 0 (and "0"/"0%" through the
router for the configured constants), a reading of exactly M yields 100
(and "100"/"100%"), and otherwise the value is (reading / M) × 100
truncated to an integer. -/
theorem spec_C7_fan_percentage (comp : Computer) (fanIdx M : Nat) (s : Sensor)
    (hM : 0 < M) (hf : (fanSensors comp)[fanIdx]? = some s) :
    (s.value.getD 0 = 0 → GetCpuFanSpeed fanIdx M comp = 0)
      ∧ (s.value.getD 0 = (M : ℚ) → GetCpuFanSpeed fanIdx M comp = 100)
      ∧ (s.value.getD 0 ≠ 0 →
          GetCpuFanSpeed fanIdx M comp = ratTrunc (s.value.getD 0 / (M : ℚ) * 100))
      ∧ (∀ s2 : Sensor, (fanSensors comp)[CPU_FAN]? = some s2 →
          (s2.value.getD 0 = 0 →
              function1 "Fan" "0" comp = "0" ∧ function1 "Fan" "1" comp = "0%")
            ∧ (s2.value.getD 0 = (CPU_SPEED : ℚ) →
              function1 "Fan" "0" comp = "100" ∧ function1 "Fan" "1" comp = "100%")) := by
  refine ⟨fun h => GetCpuFanSpeed_zero fanIdx M comp s hf h,
    fun h => GetCpuFanSpeed_max fanIdx M comp s hM hf h,
    fun h => ?_, fun s2 hf2 => ⟨fun h0 => ?_, fun hmax => ?_⟩⟩
  · unfold GetCpuFanSpeed
    rw [hf]
    show (if s.value.getD 0 = 0 then 0
      else ratTrunc (s.value.getD 0 / (M : ℚ) * 100))
        = ratTrunc (s.value.getD 0 / (M : ℚ) * 100)
    rw [if_neg h]
  · have hz := GetCpuFanSpeed_zero CPU_FAN CPU_SPEED comp s2 hf2 h0
    constructor <;> (simp [function1, hz, strAppendEmpty]; decide)
  · have hz := GetCpuFanSpeed_max CPU_FAN CPU_SPEED comp s2 (by norm_num [CPU_SPEED]) hf2 hmax
    constructor <;> (simp [function1, hz, strAppendEmpty]; decide)

/-- Concrete hardware tree for the C7 witness: three motherboard fan
sensors, the one at index CPU_FAN = 2 reading exactly CPU_SPEED RPM. -/
def compC7 : Computer :=
  [{ htype := HardwareType.Motherboard, sensors := [],
     subHardware := [{ sensors :=
       [{ stype := SensorType.Fan, name := "Fan #1", value := some 500 },
        { stype := SensorType.Fan, name := "Fan #2", value := some 0 },
        { stype := SensorType.Fan, name := "Fan #3", value := some 1800 }] }] }]

/-- Witness for C7: a reading equal to the configured maximum RPM yields
"100" and "100%". -/
theorem spec_C7_witness :
    function1 "Fan" "0" compC7 = "100" ∧ function1 "Fan" "1" compC7 = "100%" := by
  have h := spec_C7_fan_percentage compC7 2 1800
    { stype := SensorType.Fan, name := "Fan #3", value := some 1800 }
    (by norm_num) rfl
  exact (h.2.2.2 { stype := SensorType.Fan, name := "Fan #3", value := some 1800 }
    rfl).2 (by simp [CPU_SPEED])

/-- C10 (amended): when the matching CPU sensor is found but its optional
value is absent, every CPU lookup substitutes the default 0 and the
router formats it as a valid zero reading — "0" for the integer metrics
and "0.00" for the clock, with the unit suffix when requested — never as
the −1 sentinel or an "Error reading" string. -/
theorem spec_C10_default_zero (comp : Computer) :
    (∀ s : Sensor, findCpuSensor SensorType.Load (fun n => n = "CPU Total") comp = some s →
        s.value = none → GetCpuLoad comp = 0
          ∧ function1 "Load" "0" comp = "0" ∧ function1 "Load" "1" comp = "0%")
      ∧ (∀ s : Sensor,
          findCpuSensor SensorType.Power (fun n => containsStr n "Package") comp = some s →
          s.value = none → GetCpuPower comp = 0
            ∧ function1 "Power" "0" comp = "0" ∧ function1 "Power" "1" comp = "0W")
      ∧ (∀ s : Sensor,
          findCpuSensor SensorType.Temperature (fun n => n = "CPU Package") comp = some s →
          s.value = none → GetCpuTemperature comp = 0
            ∧ function1 "Temp" "0" comp = "0" ∧ function1 "Temp" "1" comp = "0°C")
      ∧ (∀ s : Sensor, (fanSensors comp)[CPU_FAN]? = some s → s.value = none →
          GetCpuFanSpeedRPM CPU_FAN CPU_SPEED comp = 0
            ∧ function1 "Fan_RPM" "0" comp = "0" ∧ function1 "Fan_RPM" "1" comp = "0RPM"
            ∧ GetCpuFanSpeed CPU_FAN CPU_SPEED comp = 0
            ∧ function1 "Fan" "0" comp = "0" ∧ function1 "Fan" "1" comp = "0%")
      ∧ (∀ s : Sensor, findCpuSensor SensorType.Clock (fun n => n = "CPU Core #1") comp = some s →
          s.value = none → GetCpuFrequency comp = 0
            ∧ function1 "Clock" "0" comp = "0.00" ∧ function1 "Clock" "1" comp = "0.00GHz") := by
  have hrt : ratTrunc ((none : Option ℚ).getD 0) = 0 := by
    rw [ratTrunc_of_nonneg _ (by norm_num)]
    norm_num
  refine ⟨fun s hf hv => ?_, fun s hf hv => ?_, fun s hf hv => ?_,
    fun s hf hv => ?_, fun s hf hv => ?_⟩
  · have hz : GetCpuLoad comp = 0 := by
      unfold GetCpuLoad; rw [hf]
      show ratTrunc (s.value.getD 0) = 0
      rw [hv]; exact hrt
    refine ⟨hz, ?_, ?_⟩ <;> (simp [function1, hz, strAppendEmpty]; decide)
  · have hz : GetCpuPower comp = 0 := by
      unfold GetCpuPower; rw [hf]
      show ratTrunc (s.value.getD 0) = 0
      rw [hv]; exact hrt
    refine ⟨hz, ?_, ?_⟩ <;> (simp [function1, hz, strAppendEmpty]; decide)
  · have hz : GetCpuTemperature comp = 0 := by
      unfold GetCpuTemperature; rw [hf]
      show ratTrunc (s.value.getD 0) = 0
      rw [hv]; exact hrt
    refine ⟨hz, ?_, ?_⟩ <;> (simp [function1, hz, strAppendEmpty]; decide)
  · have hz : GetCpuFanSpeedRPM CPU_FAN CPU_SPEED comp = 0 := by
      unfold GetCpuFanSpeedRPM; rw [hf]
      show ratTrunc (s.value.getD 0) = 0
      rw [hv]; exact hrt
    have hz2 : GetCpuFanSpeed CPU_FAN CPU_SPEED comp = 0 :=
      GetCpuFanSpeed_zero CPU_FAN CPU_SPEED comp s hf (by rw [hv]; rfl)
    refine ⟨hz, ?_, ?_, hz2, ?_, ?_⟩ <;>
      (simp [function1, hz, hz2, strAppendEmpty]; decide)
  · have hz : GetCpuFrequency comp = 0 := by
      unfold GetCpuFrequency; rw [hf]
      show s.value.getD 0 = 0
      rw [hv]
      rfl
    refine ⟨hz, ?_, ?_⟩ <;>
      simp [function1, hz, strAppendEmpty, zero_div, format2_zero]

/-- Concrete hardware tree for the C10 counterexample: a CPU clock
sensor with an absent value. -/
def compC10 : Computer :=
  [{ htype := HardwareType.Cpu,
     sensors := [{ stype := SensorType.Clock, name := "CPU Core #1", value := none }],
     subHardware := [] }]

/-- Counterexample for C10 as stated: an absent clock value is formatted
as "0.00", not as the claimed "0". -/
theorem spec_C10_counterexample :
    function1 "Clock" "0" compC10 = "0.00" ∧ ("0.00" : String) ≠ "0" := by
  have hz : GetCpuFrequency compC10 = 0 := rfl
  constructor
  · simp [function1, hz, strAppendEmpty, zero_div, format2_zero]
  · decide

/-- Concrete hardware tree for the C10 witness: every matched CPU sensor
and the configured fan sensor carry an absent value. -/
def compC10w : Computer :=
  [{ htype := HardwareType.Cpu,
     sensors :=
       [{ stype := SensorType.Load, name := "CPU Total", value := none },
        { stype := SensorType.Power, name := "CPU Package", value := none },
        { stype := SensorType.Temperature, name := "CPU Package", value := none },
        { stype := SensorType.Clock, name := "CPU Core #1", value := none }],
     subHardware := [] },
   { htype := HardwareType.Motherboard, sensors := [],
     subHardware := [{ sensors :=
       [{ stype := SensorType.Fan, name := "Fan #1", value := none },
        { stype := SensorType.Fan, name := "Fan #2", value := none },
        { stype := SensorType.Fan, name := "Fan #3", value := none }] }] }]

/-- Witness for C10 (amended) on a tree whose matched sensors all carry
absent values. -/
theorem spec_C10_witness :
    function1 "Load" "1" compC10w = "0%" ∧ function1 "Fan" "1" compC10w = "0%"
      ∧ function1 "Clock" "1" compC10w = "0.00GHz" := by
  have h := spec_C10_default_zero compC10w
  exact ⟨(h.1 _ rfl rfl).2.2, (h.2.2.2.1 _ rfl rfl).2.2.2.2.2, (h.2.2.2.2 _ rfl rfl).2.2⟩

theorem lastCharUnitFree_append2 (a b : String) (ha : lastCharUnitFree a = true)
    (hb : lastCharUnitFree b = true) : lastCharUnitFree (a ++ b) = true := by
  unfold lastCharUnitFree at *
  rw [data_append, List.reverse_append]
  cases hrev : b.data.reverse with
  | nil => simpa using ha
  | cons c t => rw [hrev] at hb; simpa using hb

/-- Table of the five integer CPU metrics: name, backend reading and
unit suffix (the Clock metric is fixed-point and is treated apart). -/
def cpuIntMetrics : List (String × (Computer → Int) × String) :=
  [("Load", GetCpuLoad, "%"),
   ("Power", GetCpuPower, "W"),
   ("Temp", GetCpuTemperature, "°C"),
   ("Fan_RPM", GetCpuFanSpeedRPM CPU_FAN CPU_SPEED, "RPM"),
   ("Fan", GetCpuFanSpeed CPU_FAN CPU_SPEED, "%")]

/-- Table of the eight GPU metrics that carry a unit: name, status-code
selector and unit suffix ("Limit" carries no unit and is treated apart). -/
def gpuUnitMetrics : List (String × (NvmlEnv → Nat) × String) :=
  [("Temp", NvmlEnv.tempResult, "°C"),
   ("Fan", NvmlEnv.fanResult, "%"),
   ("Power", NvmlEnv.powerResult, "W"),
   ("Clock", NvmlEnv.clockResult, "GHz"),
   ("Mem_Clock", NvmlEnv.memClockResult, "GHz"),
   ("Mem_Alloc", NvmlEnv.memResult, "Gb"),
   ("Mem_Usage", NvmlEnv.memResult, "%"),
   ("Load", NvmlEnv.utilResult, "%")]

theorem cpuNoSuffixFlag0 (comp : Computer) :
    ∀ e ∈ cpuIntMetrics, hasUnitSuffix (function1 e.1 "0" comp) = false := by
  intro e he
  simp only [cpuIntMetrics] at he
  fin_cases he
  all_goals simp [function1, strAppendEmpty]
  all_goals split
  all_goals first
    | decide
    | exact natStr_unitSuffix _

theorem cpuUnitAppend (comp : Computer) :
    ∀ e ∈ cpuIntMetrics,
      (0 ≤ e.2.1 comp → function1 e.1 "1" comp = function1 e.1 "0" comp ++ e.2.2)
        ∧ (e.2.1 comp < 0 → function1 e.1 "1" comp = function1 e.1 "0" comp) := by
  intro e he
  simp only [cpuIntMetrics] at he
  fin_cases he <;>
    exact ⟨fun h => by simp [function1, not_lt.mpr h, strAppendEmpty],
      fun h => by simp [function1, h]⟩

theorem gpuNoSuffixFlag0 (env : NvmlEnv)
    (herr : ∀ r : Nat, lastCharUnitFree (env.errString r) = true) :
    ∀ g ∈ gpuUnitMetrics, hasUnitSuffix (function2 g.1 "0" true env) = false := by
  intro g hg
  simp only [gpuUnitMetrics, List.mem_cons, List.not_mem_nil, or_false] at hg
  have herr2 : ∀ pre : String, lastCharUnitFree pre = true →
      ∀ r : Nat, hasUnitSuffix (pre ++ env.errString r) = false := fun pre hpre r =>
    hasUnitSuffix_false_of_unitFree _ (lastCharUnitFree_append2 _ _ hpre (herr r))
  rcases hg with rfl | rfl | rfl | rfl | rfl | rfl | rfl | rfl
  · simp [function2, checkNvmlInitialized, strAppendEmpty]
    split
    · split
      · exact natStr_unitSuffix _
      · exact herr2 _ (by decide) _
    · exact herr2 _ (by decide) _
  · simp [function2, checkNvmlInitialized, strAppendEmpty]
    split
    · split
      · exact natStr_unitSuffix _
      · exact herr2 _ (by decide) _
    · exact herr2 _ (by decide) _
  · simp [function2, checkNvmlInitialized, strAppendEmpty]
    split
    · split
      · exact natStr_unitSuffix _
      · exact herr2 _ (by decide) _
    · exact herr2 _ (by decide) _
  · simp [function2, checkNvmlInitialized, strAppendEmpty]
    split
    · split
      · exact hasUnitSuffix_false_of_unitFree _ (format2_unitFree _)
      · exact herr2 _ (by decide) _
    · exact herr2 _ (by decide) _
  · simp [function2, checkNvmlInitialized, strAppendEmpty]
    split
    · split
      · exact hasUnitSuffix_false_of_unitFree _ (format2_unitFree _)
      · exact herr2 _ (by decide) _
    · exact herr2 _ (by decide) _
  · simp [function2, checkNvmlInitialized, strAppendEmpty]
    split
    · split
      · exact hasUnitSuffix_false_of_unitFree _ (format1_unitFree _)
      · exact herr2 _ (by decide) _
    · exact herr2 _ (by decide) _
  · simp [function2, checkNvmlInitialized, strAppendEmpty]
    split
    · split
      · exact natStr_unitSuffix _
      · exact herr2 _ (by decide) _
    · exact herr2 _ (by decide) _
  · simp [function2, checkNvmlInitialized, strAppendEmpty]
    split
    · split
      · exact natStr_unitSuffix _
      · exact herr2 _ (by decide) _
    · exact herr2 _ (by decide) _

theorem gpuUnitAppend (env : NvmlEnv) :
    ∀ g ∈ gpuUnitMetrics, env.handleResult = 0 → g.2.1 env = 0 →
      function2 g.1 "1" true env = function2 g.1 "0" true env ++ g.2.2 := by
  intro g hg hh hr
  simp only [gpuUnitMetrics, List.mem_cons, List.not_mem_nil, or_false] at hg
  rcases hg with rfl | rfl | rfl | rfl | rfl | rfl | rfl | rfl <;>
    simp only at hr <;>
    simp [function2, checkNvmlInitialized, hh, hr, strAppendEmpty]

theorem gpuErrorFlagIndep (env : NvmlEnv) :
    ∀ g ∈ gpuUnitMetrics, (env.handleResult ≠ 0 ∨ g.2.1 env ≠ 0) →
      function2 g.1 "1" true env = function2 g.1 "0" true env := by
  intro g hg hor
  simp only [gpuUnitMetrics, List.mem_cons, List.not_mem_nil, or_false] at hg
  by_cases hh : env.handleResult = 0
  · rcases hor with hne | hne
    · exact absurd hh hne
    · rcases hg with rfl | rfl | rfl | rfl | rfl | rfl | rfl | rfl <;>
        simp only at hne <;>
        simp [function2, checkNvmlInitialized, hh, hne]
  · rcases hg with rfl | rfl | rfl | rfl | rfl | rfl | rfl | rfl <;>
      simp [function2, checkNvmlInitialized, hh]

theorem limitNoSuffix (env : NvmlEnv) (p2 : String)
    (herr : ∀ r : Nat, lastCharUnitFree (env.errString r) = true) :
    hasUnitSuffix (function2 "Limit" p2 true env) = false := by
  simp [function2, checkNvmlInitialized]
  split
  all_goals try split
  all_goals first
    | exact hasUnitSuffix_false_of_unitFree _
        (lastCharUnitFree_append2 _ _ (by decide) (herr _))
    | (split <;> decide)
    | decide

/-- C2 (amended): with the show-units flag "0" no output ever carries a
unit suffix; with "1" a successful reading of every supported metric
other than GPU "Limit" is the flag-"0" output with the metric's fixed
unit appended; error outputs are identical for both flag values (and,
provided the vendor status texts do not end in a unit character, carry
no unit suffix); the GPU "Limit" output never carries a unit suffix for
either flag. -/
theorem spec_C2_unit_suffixing (comp : Computer) (env : NvmlEnv)
    (herr : ∀ r : Nat, lastCharUnitFree (env.errString r) = true) :
    (∀ e ∈ cpuIntMetrics,
        hasUnitSuffix (function1 e.1 "0" comp) = false
          ∧ (0 ≤ e.2.1 comp →
              function1 e.1 "1" comp = function1 e.1 "0" comp ++ e.2.2)
          ∧ (e.2.1 comp < 0 → function1 e.1 "1" comp = function1 e.1 "0" comp))
      ∧ (hasUnitSuffix (function1 "Clock" "0" comp) = false
          ∧ (0 ≤ GetCpuFrequency comp →
              function1 "Clock" "1" comp = function1 "Clock" "0" comp ++ "GHz")
          ∧ (GetCpuFrequency comp < 0 →
              function1 "Clock" "1" comp = function1 "Clock" "0" comp))
      ∧ (∀ g ∈ gpuUnitMetrics,
          hasUnitSuffix (function2 g.1 "0" true env) = false
            ∧ (env.handleResult = 0 → g.2.1 env = 0 →
                function2 g.1 "1" true env = function2 g.1 "0" true env ++ g.2.2)
            ∧ (env.handleResult ≠ 0 ∨ g.2.1 env ≠ 0 →
                function2 g.1 "1" true env = function2 g.1 "0" true env))
      ∧ (hasUnitSuffix (function2 "Limit" "0" true env) = false
          ∧ hasUnitSuffix (function2 "Limit" "1" true env) = false
          ∧ function2 "Limit" "1" true env = function2 "Limit" "0" true env) := by
  refine ⟨fun e he => ⟨cpuNoSuffixFlag0 comp e he, cpuUnitAppend comp e he⟩,
    ⟨?_, fun h => by simp [function1, not_lt.mpr h, strAppendEmpty],
      fun h => by simp [function1, h]⟩,
    fun g hg => ⟨gpuNoSuffixFlag0 env herr g hg,
      fun hh hr => gpuUnitAppend env g hg hh hr,
      fun hor => gpuErrorFlagIndep env g hg hor⟩,
    limitNoSuffix env "0" herr, limitNoSuffix env "1" herr, rfl⟩
  simp [function1, strAppendEmpty]
  split
  · decide
  · exact hasUnitSuffix_false_of_unitFree _ (format2_unitFree _)

/-- Concrete NVML environment for the C2 counterexample: the throttle
reading succeeds with the reliability bit set. -/
def envC2bad : NvmlEnv := { env0 with throttleReasons := 4 }

/-- Counterexample for C2 as stated: a successful GPU "Limit" reading
with the show-units flag "1" yields "!", which is not suffixed with any
of the six fixed units. -/
theorem spec_C2_counterexample :
    function2 "Limit" "1" true envC2bad = "!"
      ∧ hasUnitSuffix (function2 "Limit" "1" true envC2bad) = false := by
  decide

theorem env0_errString_unitFree :
    ∀ r : Nat, lastCharUnitFree (env0.errString r) = true := by
  intro r
  show lastCharUnitFree "Unknown Error" = true
  decide

/-- Witness for C2 (amended): error outputs are flag-independent on an
empty tree, and a successful GPU temperature reading gains "°C". -/
theorem spec_C2_witness :
    function1 "Load" "1" ([] : Computer) = function1 "Load" "0" ([] : Computer)
      ∧ function2 "Temp" "1" true env0 = function2 "Temp" "0" true env0 ++ "°C" := by
  have h := spec_C2_unit_suffixing [] env0 env0_errString_unitFree
  refine ⟨(h.1 ("Load", GetCpuLoad, "%")
      (by unfold cpuIntMetrics; exact List.Mem.head _)).2.2 (by decide), ?_⟩
  exact (h.2.2.1 ("Temp", NvmlEnv.tempResult, "°C")
    (by unfold gpuUnitMetrics; exact List.Mem.head _)).2.1 rfl rfl
